import Mathlib

/-!
Verification development for the pAIr composite compliance-risk and
financial-impact scoring engine.

Shallow embedding of `src/backend/scoring/compliance_risk.py`,
`src/backend/scoring/impact_engine.py`, `src/backend/scoring/sustainability.py`,
`src/backend/scoring/profitability.py` (amount parser) and
`src/backend/config.py` (ScoringConfig).

Modelling conventions:
- Python floats are modelled as `ℚ` where the source only performs rational
  arithmetic, and as `ℝ` where the source uses `math.exp` / `math.log10` /
  `math.log2` / non-integer powers.
- Python `round(x, 1)` / `round(x, 0)` are modelled with Mathlib's `round`
  (round-half-up).  Python uses round-half-to-even; the two agree except at
  exact ties, and no statement below depends on a tie.
- `datetime.utcnow()` is modelled by an explicit integer parameter `now`
  (a day number); ISO timestamps stored in reports are modelled by that
  integer.  A deadline string that `datetime.strptime` parses successfully
  is represented by the constructor `DeadlineSpec.date` carrying the parsed
  absolute day number; all other deadline strings are carried verbatim in
  `DeadlineSpec.text` and classified by the same keyword tests as the source.
- Python `str.lower` / `str.upper` are modelled for ASCII text (all
  classifier keywords in the source are ASCII).
- Python dictionaries with `.get` defaults are modelled as structures whose
  field defaults are the corresponding `.get` defaults; dictionaries used
  as keyword→score maps are association lists (insertion order preserved,
  keys kept unique by construction, as in CPython).
- A Python `ValueError` escaping a function (`float(...)` on a digit-free
  token) is modelled by `Except Unit`.
-/

/-! ### ASCII string helpers (Python `str.lower`, `str.upper`, `in`, `split`) -/

def lowerChar (c : Char) : Char :=
  if 65 ≤ c.toNat ∧ c.toNat ≤ 90 then Char.ofNat (c.toNat + 32) else c

def upperChar (c : Char) : Char :=
  if 97 ≤ c.toNat ∧ c.toNat ≤ 122 then Char.ofNat (c.toNat - 32) else c

def lowerStr (s : String) : String := ⟨s.data.map lowerChar⟩

def upperStr (s : String) : String := ⟨s.data.map upperChar⟩

/-- Does `pat` occur as a contiguous sublist of `l`?  (Python `pat in s`.) -/
def subOccurs (pat : List Char) : List Char → Bool
  | [] => pat.isEmpty
  | c :: t => pat.isPrefixOf (c :: t) || subOccurs pat t

/-- Python substring test `pat in s`. -/
def containsSub (s pat : String) : Bool := subOccurs pat.data s.data

/-- Python `s.split()` restricted to the words longer than `n` characters
(the source always filters `len(w) > 3` right after splitting). -/
def wordsLongerThan (n : ℕ) (s : String) : List String :=
  (s.split (·.isWhitespace)).filter (fun w => w.length > n)

/-- Python `s.replace(" ", "_")`. -/
def underscoreSpaces (s : String) : String :=
  ⟨s.data.map (fun c => if c = ' ' then '_' else c)⟩

/-! ### Python `round(x, ndigits)` over an ordered field -/

/-- Python `round(x, 1)` (modulo the tie-breaking convention, see header). -/
def roundTo1 {α : Type} [LinearOrderedField α] [FloorRing α] (x : α) : α :=
  ((round (x * 10) : ℤ) : α) / 10

/-- Python `round(x, 0)` (modulo the tie-breaking convention, see header). -/
def roundTo0 {α : Type} [LinearOrderedField α] [FloorRing α] (x : α) : α :=
  ((round x : ℤ) : α)

/-! ### `config.py` — `ScoringConfig`

The source dataclass performs no validation whatsoever: any field values are
accepted at construction time. -/

structure ScoringConfig where
  w_severity : ℚ := 35/100
  w_penalty : ℚ := 25/100
  w_deadline : ℚ := 25/100
  w_frequency : ℚ := 15/100
  risk_critical : ℤ := 80
  risk_high : ℤ := 60
  risk_medium : ℤ := 40
  risk_low : ℤ := 20
  paper_pages_per_policy : ℕ := 25
  co2_per_km_kg : ℚ := 21/100
  avg_consultant_travel_km : ℚ := 50
  kwh_per_digital_transaction : ℚ := 1/200
  co2_per_kwh_kg : ℚ := 82/100

/-- The process-wide `config.scoring` singleton (all defaults). -/
def defaultScoringConfig : ScoringConfig := {}

/-! ### Business profile (the `.get`-with-default reads of the source) -/

structure BusinessProfile where
  sector : Option String := none
  business_type : Option String := none
  state : Option String := none
  location : Option String := none
  owner_category : Option String := none

/-- Source `profile.get("sector", profile.get("business_type", ""))`. -/
def BusinessProfile.sectorText (p : BusinessProfile) : String :=
  p.sector.getD (p.business_type.getD "")

/-- Source `profile.get("state", profile.get("location", ""))`. -/
def BusinessProfile.stateText (p : BusinessProfile) : String :=
  p.state.getD (p.location.getD "")

namespace ComplianceRisk

/-! ### `compliance_risk.py` — enums, tables, data models -/

inductive RiskBand where
  | CRITICAL | HIGH | MEDIUM | LOW | MINIMAL
deriving DecidableEq, Repr

/-- Source `SECTOR_RISK_MULTIPLIERS` (values reached through
`_get_sector_multiplier`, which resolves the key by keyword). -/
def sectorRiskMultipliers (key : String) : ℚ :=
  if key = "manufacturing" then 125/100
  else if key = "service" then 1
  else if key = "trading" then 110/100
  else if key = "handicraft" then 90/100
  else 105/100   -- "default"

/-- Source `REGIONAL_STRICTNESS`, in insertion order (partial-match lookup iterates
in this order). -/
def regionalStrictness : List (String × ℚ) :=
  [("maharashtra", 120/100), ("karnataka", 115/100), ("tamil_nadu", 110/100),
   ("telangana", 110/100), ("delhi", 125/100), ("gujarat", 105/100),
   ("uttar_pradesh", 90/100), ("west_bengal", 95/100), ("rajasthan", 90/100),
   ("default", 1)]

/-- Source `URGENCY_LAMBDA = 0.033`. -/
noncomputable def urgencyLambda : ℝ := 33/1000

/-- Source `DISCOUNT_RATE_ANNUAL = 0.10`. -/
noncomputable def discountRateAnnual : ℝ := 10/100

/-- A deadline input string.  `date d` stands for a string that
`datetime.strptime` parses under one of the five accepted formats, `d` being
the parsed absolute day number; `text s` is any other string (including the
empty one), classified by the keyword tests of `_score_deadline`. -/
inductive DeadlineSpec where
  | date (d : ℤ)
  | text (s : String)
deriving DecidableEq, Repr

/-- One entry of `analysis["obligations"]`; field defaults are the `.get`
defaults used by `_score_obligation`. -/
structure ObligationInput where
  obligation : String := "Unknown"
  severity_if_ignored : String := "WARNING"
  deadline : DeadlineSpec := .text ""
  frequency : String := "ONE_TIME"
deriving DecidableEq, Repr

/-- One entry of `analysis["penalties"]`. -/
structure PenaltyInput where
  violation : String := ""
  penalty_amount : String := ""
deriving DecidableEq, Repr

/-- One entry of `analysis["compliance_actions"]`. -/
structure ActionInput where
  action : String := ""
  priority : String := "MEDIUM"
deriving DecidableEq, Repr

/-- The `PolicyAnalysis`-shaped dict consumed by `ComplianceRiskScorer.score`. -/
structure AnalysisInput where
  obligations : List ObligationInput := []
  penalties : List PenaltyInput := []
  compliance_actions : List ActionInput := []
deriving DecidableEq, Repr

/-- Source `ObligationRisk` dataclass.  `urgency_decay_score` and
`discounted_penalty_inr` come from transcendental formulas and live in `ℝ`. -/
structure ObligationRisk where
  obligation_name : String
  severity_score : ℚ
  penalty_score : ℚ
  deadline_score : ℚ
  frequency_score : ℚ
  weighted_score : ℚ := 0
  risk_band : RiskBand := .MINIMAL
  days_remaining : Option ℤ := none
  remediation_hint : String := ""
  expected_penalty_inr : ℚ := 0
  urgency_decay_score : ℝ := 0
  discounted_penalty_inr : ℝ := 0
  sector_adjusted_score : ℚ := 0

/-- Source `score_breakdown` dict (per-factor averages). -/
structure FactorAverages where
  severity : ℚ
  penalty : ℚ
  deadline : ℚ
  frequency : ℚ
deriving DecidableEq, Repr

/-- Source `ComplianceRiskReport` dataclass; `generated_at` is the `utcnow` reading
(see header). -/
structure ComplianceRiskReport where
  overall_score : ℚ
  overall_band : RiskBand
  obligation_risks : List ObligationRisk
  top_risks : List ObligationRisk
  score_breakdown : FactorAverages
  generated_at : ℤ := 0
  recommendations : List String := []
  sector_multiplier : ℚ := 1
  regional_multiplier : ℚ := 1
  total_expected_penalty_inr : ℚ := 0
  total_discounted_penalty_inr : ℝ := 0
  risk_velocity : String := ""

/-- The weights dict built by `ComplianceRiskScorer.__init__` from
`config.scoring`.  The constructor performs no validation: it copies the four
configured weights unconditionally. -/
structure RiskWeights where
  severity : ℚ
  penalty : ℚ
  deadline : ℚ
  frequency : ℚ
deriving DecidableEq, Repr

/-- Source `ComplianceRiskScorer.__init__` (construction of the engine). -/
def initWeights (cfg : ScoringConfig) : RiskWeights :=
  { severity := cfg.w_severity
    penalty := cfg.w_penalty
    deadline := cfg.w_deadline
    frequency := cfg.w_frequency }

/-- Sum of a weight set (used to state the spec's sums-to-one invariant). -/
def RiskWeights.sum (w : RiskWeights) : ℚ :=
  w.severity + w.penalty + w.deadline + w.frequency

/-! ### Factor normalisers -/

/-- Source `_normalize_severity`: enum-value substring match first (the six
`Severity` values, in declaration order), then keyword fallback. -/
def normalizeSeverity (raw : String) : ℚ :=
  if containsSub raw "CRIMINAL" then 100
  else if containsSub raw "SUSPENSION" then 90
  else if containsSub raw "HEAVY_FINE" then 75
  else if containsSub raw "MODERATE_FINE" then 55
  else if containsSub raw "WARNING" then 35
  else if containsSub raw "ADVISORY" then 15
  else
    let kw := lowerStr raw
    if containsSub kw "imprison" || containsSub kw "criminal" || containsSub kw "jail" then 100
    else if containsSub kw "suspend" || containsSub kw "revok" || containsSub kw "cancel" then 90
    else if containsSub kw "heavy" || containsSub kw "lakh" || containsSub kw "crore" || containsSub kw "signific" then 75
    else if containsSub kw "fine" || containsSub kw "penal" then 55
    else if containsSub kw "warn" || containsSub kw "notice" then 35
    else 25

/-- Source `_normalize_frequency`: enum-value substring match first (declaration
order), then keyword fallback. -/
def normalizeFrequency (raw : String) : ℚ :=
  if containsSub raw "DAILY" then 100
  else if containsSub raw "WEEKLY" then 85
  else if containsSub raw "MONTHLY" then 70
  else if containsSub raw "QUARTERLY" then 50
  else if containsSub raw "ANNUALLY" then 30
  else if containsSub raw "ONE_TIME" then 10
  else
    let kw := lowerStr raw
    if containsSub kw "daily" || containsSub kw "continuous" then 100
    else if containsSub kw "week" then 85
    else if containsSub kw "month" then 70
    else if containsSub kw "quarter" then 50
    else if containsSub kw "annual" || containsSub kw "year" then 30
    else 10

/-- Source `_score_deadline`, with `now` the `datetime.utcnow()` day number.
Returns `(score, days_remaining)`. -/
def scoreDeadline (now : ℤ) : DeadlineSpec → ℚ × Option ℤ
  | .date d =>
    let delta := d - now
    if delta < 0 then (100, some delta)
    else if delta ≤ 7 then (95, some delta)
    else if delta ≤ 14 then (85, some delta)
    else if delta ≤ 30 then (70, some delta)
    else if delta ≤ 60 then (50, some delta)
    else if delta ≤ 90 then (35, some delta)
    else if delta ≤ 180 then (20, some delta)
    else (10, some delta)
  | .text s =>
    if s = "" then (40, none)
    else
      let kw := lowerStr s
      if containsSub kw "immediate" || containsSub kw "urgent" || containsSub kw "overdue" || containsSub kw "asap" then (95, some 0)
      else if containsSub kw "within 7" || containsSub kw "1 week" then (85, some 7)
      else if containsSub kw "within 30" || containsSub kw "1 month" then (65, some 30)
      else if containsSub kw "within 90" || containsSub kw "3 month" || containsSub kw "quarter" then (40, some 90)
      else if containsSub kw "annual" || containsSub kw "yearly" || containsSub kw "before march" then (25, some 180)
      else (40, none)

/-! ### Indian currency parsing (`_parse_penalty_amount`)

`re.search` on the source's patterns is realised by a direct scan: each
pattern is `([\d.]+)\s*(unit-alternatives)` (or a bare `([\d.]+)`, or
`rs\.?\s*([\d.]+)`), and the captured group is the leftmost maximal
digits-and-dots run satisfying the pattern.  `float(token)` succeeds exactly
when the token contains at least one digit and at most one dot; otherwise it
raises `ValueError`, modelled by `Except.error ()`. -/

def isNumChar (c : Char) : Bool := c.isDigit || c = '.'

/-- Value of a digit list (tokens passed here contain digits only). -/
def digitsVal (l : List Char) : ℕ :=
  l.foldl (fun a c => a * 10 + c.toNat - 48) 0

/-- Python `float(token)` for a token matched by `[\d.]+`. -/
def pyFloat (tok : List Char) : Except Unit ℚ :=
  if tok.any Char.isDigit && tok.count '.' ≤ 1 then
    let ip := tok.takeWhile (· ≠ '.')
    let fp := (tok.dropWhile (· ≠ '.')).drop 1
    .ok ((digitsVal ip : ℚ) + (digitsVal fp : ℚ) / (10 ^ fp.length))
  else .error ()

/-- Source `re.search(r"([\d.]+)\s*(u₁|u₂|...)", s)`: leftmost digits-and-dots run
followed (after optional whitespace) by one of the unit words. -/
def findNumUnit (units : List (List Char)) : List Char → Option (List Char)
  | [] => none
  | c :: t =>
    if isNumChar c then
      let run := (c :: t).takeWhile isNumChar
      let after := ((c :: t).dropWhile isNumChar).dropWhile Char.isWhitespace
      if units.any (fun u => u.isPrefixOf after) then some run
      else findNumUnit units t
    else findNumUnit units t

/-- Source `re.search(r"([\d.]+)", s)`: leftmost maximal digits-and-dots run. -/
def findNum : List Char → Option (List Char)
  | [] => none
  | c :: t => if isNumChar c then some ((c :: t).takeWhile isNumChar) else findNum t

/-- Source `re.search(r"rs\.?\s*([\d.]+)", s)`. -/
def findRsNum : List Char → Option (List Char)
  | 'r' :: 's' :: rest =>
    let afterDot : List Char :=
      match rest with
      | '.' :: t => t.dropWhile Char.isWhitespace
      | _ => []
    let runA := afterDot.takeWhile isNumChar
    if runA ≠ [] then some runA
    else
      let b := rest.dropWhile Char.isWhitespace
      let runB := b.takeWhile isNumChar
      if runB ≠ [] then some runB else findRsNum ('s' :: rest)
  | _ :: t => findRsNum t
  | [] => none

/-- Source `ComplianceRiskScorer._parse_penalty_amount`.  `Except.error ()` is a
`ValueError` escaping from `float(...)`. -/
def parsePenaltyAmount (s : String) : Except Unit ℚ :=
  if s = "" then .ok 0
  else
    let t := (lowerStr s).data.filter (· ≠ ',')
    match findNumUnit ["crore".data, "cr".data] t with
    | some run => (pyFloat run).map (· * 10000000)
    | none =>
    match findNumUnit ["lakh".data, "lac".data, "l".data] t with
    | some run => (pyFloat run).map (· * 100000)
    | none =>
    match findNumUnit ["thousand".data, "k".data] t with
    | some run => (pyFloat run).map (· * 1000)
    | none =>
    match findRsNum t with
    | some run => pyFloat run
    | none =>
    match findNum t with
    | some run => pyFloat run
    | none => .ok 0

/-- Source `_penalty_amount_to_score` (propagates the parser's possible
`ValueError`). -/
def penaltyAmountToScore (amount : String) : Except Unit ℚ :=
  (parsePenaltyAmount amount).map fun parsed =>
    if parsed ≤ 0 then 30
    else if parsed ≥ 1000000 then 100
    else if parsed ≥ 500000 then 85
    else if parsed ≥ 100000 then 70
    else if parsed ≥ 50000 then 55
    else if parsed ≥ 10000 then 40
    else 25

/-- Insert `k ↦ max (current value) v` into an association list
(`pmap[word] = max(pmap.get(word, 0), score)`). -/
def upsertMax (m : List (String × ℚ)) (k : String) (v : ℚ) : List (String × ℚ) :=
  if m.any (fun kv => kv.1 = k) then
    m.map (fun kv => if kv.1 = k then (kv.1, max kv.2 v) else kv)
  else m ++ [(k, v)]

/-- Source `_build_penalty_map`: keyword→score lookup from the penalty entries; a
`ValueError` in any entry's amount aborts the whole construction (and hence
the whole `score` call), as in the source. -/
def buildPenaltyMap (penalties : List PenaltyInput) : Except Unit (List (String × ℚ)) :=
  penalties.foldlM
    (fun pmap p =>
      (penaltyAmountToScore p.penalty_amount).map fun score =>
        ((lowerStr p.violation).split (·.isWhitespace)).foldl
          (fun m word => if word.length > 3 then upsertMax m word score else m)
          pmap)
    []

/-- Source `_match_penalty_score`: keyword-overlap match, default 30. -/
def matchPenaltyScore (oblName : String) (pmap : List (String × ℚ)) : ℚ :=
  if pmap = [] then 30
  else
    let ws := (wordsLongerThan 3 oblName).map lowerStr
    let scores := ws.filterMap (fun w => pmap.lookup w)
    match scores with
    | [] => 30
    | s :: rest => rest.foldl max s

/-! ### Risk band, v4 advanced scoring -/

/-- Source `_band`: inclusive lower bounds against the configured thresholds. -/
def band (cfg : ScoringConfig) (score : ℚ) : RiskBand :=
  if score ≥ (cfg.risk_critical : ℚ) then .CRITICAL
  else if score ≥ (cfg.risk_high : ℚ) then .HIGH
  else if score ≥ (cfg.risk_medium : ℚ) then .MEDIUM
  else if score ≥ (cfg.risk_low : ℚ) then .LOW
  else .MINIMAL

/-- Source `_urgency_decay`: `100·e^(−λ·days)`, 100 if overdue, 50 if unknown. -/
noncomputable def urgencyDecay (days : Option ℤ) : ℝ :=
  match days with
  | none => 50
  | some d => if d ≤ 0 then 100 else 100 * Real.exp (-(urgencyLambda * (d : ℝ)))

/-- Source `_enforcement_probability`. -/
def enforcementProbability (severityRaw : String) : ℚ :=
  let kw := lowerStr severityRaw
  if containsSub kw "criminal" || containsSub kw "imprison" || containsSub kw "jail" then 90/100
  else if containsSub kw "suspend" || containsSub kw "revok" || containsSub kw "cancel" then 80/100
  else if containsSub kw "heavy" || containsSub kw "signific" || containsSub kw "lakh" || containsSub kw "crore" then 70/100
  else if containsSub kw "fine" || containsSub kw "penal" then 55/100
  else if containsSub kw "warn" || containsSub kw "notice" then 30/100
  else 40/100

/-- Source `_extract_raw_penalty_inr`: inverse of the score breakpoints. -/
def extractRawPenaltyInr (oblName : String) (pmap : List (String × ℚ)) : ℚ :=
  let ws := (wordsLongerThan 3 oblName).map lowerStr
  let amounts := ws.map (fun w => (pmap.lookup w).getD 0)
  match amounts with
  | [] => 5000
  | a :: rest =>
    let maxScore := rest.foldl max a
    if maxScore ≥ 100 then 1000000
    else if maxScore ≥ 85 then 500000
    else if maxScore ≥ 70 then 100000
    else if maxScore ≥ 55 then 50000
    else if maxScore ≥ 40 then 10000
    else 5000

/-- Source `_discount_penalty`: `PV = FV / (1+r)^(days/365)`; full value when due,
overdue or unknown. -/
noncomputable def discountPenalty (expected : ℚ) (days : Option ℤ) : ℝ :=
  match days with
  | none => (expected : ℝ)
  | some d =>
    if d ≤ 0 then (expected : ℝ)
    else (expected : ℝ) / ((1 + discountRateAnnual) ^ ((d : ℝ) / 365))

/-- Source `_get_sector_multiplier`. -/
def getSectorMultiplier (profile : BusinessProfile) : ℚ :=
  let sector := lowerStr profile.sectorText
  if containsSub sector "manufactur" || containsSub sector "factory" || containsSub sector "production" then
    sectorRiskMultipliers "manufacturing"
  else if containsSub sector "service" || containsSub sector "consult" || containsSub sector "it" || containsSub sector "software" then
    sectorRiskMultipliers "service"
  else if containsSub sector "trad" || containsSub sector "retail" || containsSub sector "wholesale" then
    sectorRiskMultipliers "trading"
  else if containsSub sector "craft" || containsSub sector "handloom" || containsSub sector "artisan" then
    sectorRiskMultipliers "handicraft"
  else sectorRiskMultipliers "default"

/-- Source `_get_regional_multiplier`: exact key lookup, then partial (substring
either way) match in insertion order, then the `"default"` entry. -/
def getRegionalMultiplier (profile : BusinessProfile) : ℚ :=
  let state := underscoreSpaces (lowerStr profile.stateText)
  match regionalStrictness.lookup state with
  | some v => v
  | none =>
    match regionalStrictness.find? (fun kv => containsSub state kv.1 || containsSub kv.1 state) with
    | some kv => kv.2
    | none => 1

/-- Source `_remediation_hint`. -/
def remediationHint (b : RiskBand) (name : String) : String :=
  match b with
  | .CRITICAL => "Immediate action required for \x27" ++ name ++ "\x27. Consult a legal advisor."
  | .HIGH => "Schedule \x27" ++ name ++ "\x27 compliance within this week."
  | .MEDIUM => "Plan to address \x27" ++ name ++ "\x27 within the next 30 days."
  | .LOW => "Add \x27" ++ name ++ "\x27 to your quarterly review checklist."
  | .MINIMAL => "\x27" ++ name ++ "\x27 is low priority. Monitor periodically."

/-! ### Per-obligation scoring -/

/-- Source `_score_obligation`. -/
noncomputable def scoreObligation (cfg : ScoringConfig) (pmap : List (String × ℚ))
    (sectorMult regionalMult : ℚ) (now : ℤ) (obl : ObligationInput) : ObligationRisk :=
  let w := initWeights cfg
  let name := obl.obligation
  let severityRaw := upperStr obl.severity_if_ignored
  let severityScore := normalizeSeverity severityRaw
  let penaltyScore := matchPenaltyScore name pmap
  let dl := scoreDeadline now obl.deadline
  let deadlineScore := dl.1
  let daysRemaining := dl.2
  let frequencyScore := normalizeFrequency (upperStr obl.frequency)
  let weighted :=
    w.severity * severityScore + w.penalty * penaltyScore
      + w.deadline * deadlineScore + w.frequency * frequencyScore
  let adjusted := min 100 (weighted * min (sectorMult * regionalMult) (140/100))
  let decay := urgencyDecay daysRemaining
  let rawPenaltyInr := extractRawPenaltyInr name pmap
  let enforcementProb := enforcementProbability severityRaw
  let expectedPenalty := rawPenaltyInr * enforcementProb
  let discounted := discountPenalty expectedPenalty daysRemaining
  let b := band cfg adjusted
  { obligation_name := name
    severity_score := roundTo1 severityScore
    penalty_score := roundTo1 penaltyScore
    deadline_score := roundTo1 deadlineScore
    frequency_score := roundTo1 frequencyScore
    weighted_score := roundTo1 adjusted
    risk_band := b
    days_remaining := daysRemaining
    remediation_hint := remediationHint b name
    expected_penalty_inr := roundTo0 expectedPenalty
    urgency_decay_score := roundTo1 decay
    discounted_penalty_inr := roundTo0 discounted
    sector_adjusted_score := roundTo1 adjusted }

/-- Source `_score_action_as_obligation`. -/
def scoreActionAsObligation (cfg : ScoringConfig) (action : ActionInput) : ObligationRisk :=
  let w := initWeights cfg
  let sev : ℚ :=
    if action.priority = "HIGH" then 75
    else if action.priority = "MEDIUM" then 45
    else if action.priority = "LOW" then 20
    else 45
  { obligation_name := action.action
    severity_score := sev
    penalty_score := 30
    deadline_score := 40
    frequency_score := 20
    weighted_score := roundTo1 (w.severity * sev + w.penalty * 30 + w.deadline * 40 + w.frequency * 20)
    risk_band := band cfg (sev * (1/2) + 20)
    remediation_hint := "Review compliance action requirements." }

/-! ### Aggregation -/

/-- Rank weight used by `_compute_overall`: 2.0 for rank 1, 1.5 for rank 2,
1.0 for the rest. -/
def rankWeight (i : ℕ) : ℚ := if i = 0 then 2 else if i = 1 then 3/2 else 1

/-- Source `_compute_overall`: rank-weighted mean emphasising the top risks. -/
def computeOverall : List ObligationRisk → ℚ
  | [] => 0
  | [r] => r.weighted_score
  | r1 :: r2 :: rest =>
    let risks := r1 :: r2 :: rest
    let total := (risks.enum.map (fun iw => rankWeight iw.1 * iw.2.weighted_score)).sum
    let weightSum := (risks.enum.map (fun iw => rankWeight iw.1)).sum
    total / weightSum

/-- Source `_factor_averages`. -/
def factorAverages (risks : List ObligationRisk) : FactorAverages :=
  match risks with
  | [] => { severity := 0, penalty := 0, deadline := 0, frequency := 0 }
  | _ =>
    let n : ℚ := risks.length
    { severity := roundTo1 ((risks.map (·.severity_score)).sum / n)
      penalty := roundTo1 ((risks.map (·.penalty_score)).sum / n)
      deadline := roundTo1 ((risks.map (·.deadline_score)).sum / n)
      frequency := roundTo1 ((risks.map (·.frequency_score)).sum / n) }

/-- Source `_compute_risk_velocity`. -/
def computeRiskVelocity (risks : List ObligationRisk) : String :=
  let daysList := risks.filterMap (·.days_remaining)
  match daysList with
  | [] => "STABLE"
  | _ =>
    let overdue : ℚ := (daysList.filter (fun d => d < 0)).length
    let soon : ℚ := (daysList.filter (fun d => 0 ≤ d ∧ d ≤ 30)).length
    let total : ℚ := daysList.length
    let urgencyQuot := (overdue * 2 + soon) / total
    if urgencyQuot > 3/2 then "ACCELERATING"
    else if urgencyQuot < 1/2 then "DECELERATING"
    else "STABLE"

/-! ### Recommendations (`_generate_recommendations`) -/

def urgentRec : String :=
  "⚠️ URGENT: Your compliance risk is elevated. Prioritize the top obligations immediately."

def overdueRec (n : ℕ) : String :=
  s!"🔴 {n} obligation(s) are OVERDUE. Address these before all others."

def soonRec (n : ℕ) : String :=
  s!"🟡 {n} obligation(s) due within 30 days. Plan your compliance calendar now."

def highSevRec (names : String) : String :=
  s!"🔵 High-severity obligations: {names}. Non-compliance could lead to serious consequences."

def genericRec : String :=
  "📋 Set up a compliance calendar with automated reminders for recurring obligations."

/-- Is this risk overdue (`days_remaining is not None and days_remaining < 0`)? -/
def isOverdue (r : ObligationRisk) : Bool :=
  match r.days_remaining with
  | some d => d < 0
  | none => false

/-- Is this risk due within 30 days (`0 <= days_remaining <= 30`)? -/
def isSoonDue (r : ObligationRisk) : Bool :=
  match r.days_remaining with
  | some d => 0 ≤ d ∧ d ≤ 30
  | none => false

/-- Source `_generate_recommendations`, translated append by append. -/
def generateRecommendations (risks : List ObligationRisk) (b : RiskBand) : List String :=
  let recs0 : List String := []
  let recs1 := if b = .CRITICAL ∨ b = .HIGH then recs0 ++ [urgentRec] else recs0
  let overdue := risks.filter isOverdue
  let recs2 := if overdue.length > 0 then recs1 ++ [overdueRec overdue.length] else recs1
  let soon := risks.filter isSoonDue
  let recs3 := if soon.length > 0 then recs2 ++ [soonRec soon.length] else recs2
  let highSev := risks.filter (fun r => r.severity_score ≥ 75)
  let recs4 :=
    if highSev.length > 0 then
      recs3 ++ [highSevRec (String.intercalate ", " ((highSev.take 3).map (fun r => r.obligation_name.take 40)))]
    else recs3
  recs4 ++ [genericRec]

/-! ### Public API: `ComplianceRiskScorer.score` -/

/-- The sorted obligation-risk list built inside `score` (per-obligation
scores, synthetic action risks, descending stable sort by weighted score). -/
noncomputable def sortedRisks (cfg : ScoringConfig) (pmap : List (String × ℚ))
    (sectorMult regionalMult : ℚ) (now : ℤ) (analysis : AnalysisInput) : List ObligationRisk :=
  let oblRisks := analysis.obligations.map (scoreObligation cfg pmap sectorMult regionalMult now)
  let oblNames := oblRisks.map (fun o => lowerStr o.obligation_name)
  let synth := analysis.compliance_actions.filterMap
    (fun a => if oblNames.contains (lowerStr a.action) then none else some (scoreActionAsObligation cfg a))
  (oblRisks ++ synth).mergeSort (fun a b => decide (b.weighted_score ≤ a.weighted_score))

/-- Source `ComplianceRiskScorer.score` with the penalty map already built. -/
noncomputable def scoreCore (cfg : ScoringConfig) (pmap : List (String × ℚ))
    (sectorMult regionalMult : ℚ) (now : ℤ) (analysis : AnalysisInput) : ComplianceRiskReport :=
  let risks := sortedRisks cfg pmap sectorMult regionalMult now analysis
  let overall := computeOverall risks
  let overallBand := band cfg overall
  { overall_score := roundTo1 overall
    overall_band := overallBand
    obligation_risks := risks
    top_risks := risks.take 3
    score_breakdown := factorAverages risks
    generated_at := now
    recommendations := generateRecommendations risks overallBand
    sector_multiplier := sectorMult
    regional_multiplier := regionalMult
    total_expected_penalty_inr := roundTo0 (risks.map (·.expected_penalty_inr)).sum
    total_discounted_penalty_inr := roundTo0 (risks.map (·.discounted_penalty_inr)).sum
    risk_velocity := computeRiskVelocity risks }

/-- Source `ComplianceRiskScorer.score`: a `ValueError` escaping the penalty-map
construction aborts the whole call, as in the source. -/
noncomputable def score (cfg : ScoringConfig) (now : ℤ) (analysis : AnalysisInput)
    (businessProfile : Option BusinessProfile) : Except Unit ComplianceRiskReport :=
  let profile := businessProfile.getD {}
  let sectorMult := getSectorMultiplier profile
  let regionalMult := getRegionalMultiplier profile
  (buildPenaltyMap analysis.penalties).map fun pmap =>
    scoreCore cfg pmap sectorMult regionalMult now analysis

end ComplianceRisk

namespace Profitability

/-! ### `profitability.py` — `_parse_amount`

Same scanning model as `ComplianceRisk.parsePenaltyAmount`; this variant
strips `","`, `"₹"`, `"rs."`, `"rs"` up front (Python `str.replace` with an
empty replacement, i.e. deletion of every occurrence) and has no
`rs`-prefixed pattern. -/

/-- Worker for `removeAll`; the fuel argument (initially the input length,
which bounds the number of scan steps) only makes the recursion structural. -/
def removeAllAux (pat : List Char) : List Char → ℕ → List Char
  | l, 0 => l
  | [], _ + 1 => []
  | c :: t, fuel + 1 =>
    if pat ≠ [] ∧ pat.isPrefixOf (c :: t) then removeAllAux pat ((c :: t).drop pat.length) fuel
    else c :: removeAllAux pat t fuel

/-- Delete every occurrence of `pat` from `l` (Python `s.replace(pat, "")`). -/
def removeAll (pat : List Char) (l : List Char) : List Char :=
  removeAllAux pat l l.length

/-- Source `ProfitabilityOptimizer._parse_amount`. -/
def parseAmount (s : String) : Except Unit ℚ :=
  if s = "" then .ok 0
  else
    let t := removeAll "rs".data (removeAll "rs.".data (removeAll "₹".data (removeAll ",".data (lowerStr s).data)))
    match ComplianceRisk.findNumUnit ["crore".data, "cr".data] t with
    | some run => (ComplianceRisk.pyFloat run).map (· * 10000000)
    | none =>
    match ComplianceRisk.findNumUnit ["lakh".data, "lac".data, "l".data] t with
    | some run => (ComplianceRisk.pyFloat run).map (· * 100000)
    | none =>
    match ComplianceRisk.findNumUnit ["thousand".data, "k".data] t with
    | some run => (ComplianceRisk.pyFloat run).map (· * 1000)
    | none =>
    match ComplianceRisk.findNum t with
    | some run => ComplianceRisk.pyFloat run
    | none => .ok 0

end Profitability

namespace Sustainability

/-! ### `sustainability.py` — constants, data models, green score -/

def PAPER_WEIGHT_KG_PER_PAGE : ℚ := 5/1000
def TREES_PER_TON_OF_PAPER : ℚ := 17
def WATER_LITRES_PER_PAGE : ℚ := 10
def TRADITIONAL_HOURS_PER_POLICY : ℚ := 8
def DIGITAL_HOURS_PER_POLICY : ℚ := 1/2
def TRADITIONAL_COST_PER_POLICY_INR : ℚ := 5000
def DIGITAL_COST_PER_POLICY_INR : ℚ := 50
def AVG_YEARLY_POLICIES_MSME : ℚ := 12

/-- Source `PaperImpact` dataclass. -/
structure PaperImpact where
  pages_saved : ℕ
  paper_weight_kg : ℚ
  trees_saved : ℚ
  water_saved_litres : ℚ
deriving DecidableEq, Repr

/-- Source `CarbonImpact` dataclass. -/
structure CarbonImpact where
  travel_co2_saved_kg : ℚ
  energy_co2_kg : ℚ
  net_co2_saved_kg : ℚ
  equivalent_trees_planted : ℚ
deriving DecidableEq, Repr

/-- Source `EfficiencyGains` dataclass. -/
structure EfficiencyGains where
  hours_saved : ℚ
  cost_saved_inr : ℚ
  productivity_multiplier : ℚ
deriving DecidableEq, Repr

/-- Paper metrics computed by `SustainabilityEngine.calculate` for
`total_docs` processed documents. -/
def paperImpactOf (cfg : ScoringConfig) (totalDocs : ℕ) : PaperImpact :=
  let pages := cfg.paper_pages_per_policy * totalDocs
  let paperKg := (pages : ℚ) * PAPER_WEIGHT_KG_PER_PAGE
  { pages_saved := pages
    paper_weight_kg := paperKg                 -- round(·, 3) leaves these exact
    trees_saved := paperKg / 1000 * TREES_PER_TON_OF_PAPER
    water_saved_litres := (pages : ℚ) * WATER_LITRES_PER_PAGE }

/-- Carbon metrics computed by `SustainabilityEngine.calculate`. -/
def carbonImpactOf (cfg : ScoringConfig) (totalDocs : ℕ) : CarbonImpact :=
  let travelCo2 := cfg.avg_consultant_travel_km * totalDocs * cfg.co2_per_km_kg
  let energyCo2 := cfg.kwh_per_digital_transaction * totalDocs * cfg.co2_per_kwh_kg
  let netCo2 := travelCo2 - energyCo2
  { travel_co2_saved_kg := travelCo2
    energy_co2_kg := energyCo2
    net_co2_saved_kg := max 0 netCo2
    equivalent_trees_planted := max 0 (netCo2 / 22) }

/-- Efficiency metrics computed by `SustainabilityEngine.calculate`. -/
def efficiencyOf (totalDocs : ℕ) : EfficiencyGains :=
  let hoursTraditional := TRADITIONAL_HOURS_PER_POLICY * totalDocs
  let hoursDigital := DIGITAL_HOURS_PER_POLICY * totalDocs
  let costTraditional := TRADITIONAL_COST_PER_POLICY_INR * totalDocs
  let costDigital := DIGITAL_COST_PER_POLICY_INR * totalDocs
  { hours_saved := roundTo1 (hoursTraditional - hoursDigital)
    cost_saved_inr := roundTo0 (costTraditional - costDigital)
    productivity_multiplier :=
      roundTo1 (if hoursDigital > 0 then hoursTraditional / hoursDigital else 1) }

/-- The scale-bonus term of `_compute_green_score`:
`min(100, log2(max(total_docs, 1) + 1) * 25)`. -/
noncomputable def scaleScore (totalDocs : ℕ) : ℝ :=
  min 100 (Real.logb 2 ((max totalDocs 1 : ℕ) + 1 : ℝ) * 25)

/-- Source `SustainabilityEngine._compute_green_score`. -/
noncomputable def computeGreenScore (cfg : ScoringConfig) (paper : PaperImpact)
    (carbon : CarbonImpact) (efficiency : EfficiencyGains) (totalDocs : ℕ) : ℝ :=
  let paperBenchmark : ℚ := (cfg.paper_pages_per_policy : ℚ) * AVG_YEARLY_POLICIES_MSME
  let paperScore : ℝ := min 100 (((paper.pages_saved : ℚ) / max paperBenchmark 1 : ℚ) * 100)
  let carbonBenchmark : ℚ := cfg.avg_consultant_travel_km * AVG_YEARLY_POLICIES_MSME * cfg.co2_per_km_kg
  let carbonScore : ℝ := min 100 ((carbon.net_co2_saved_kg / max carbonBenchmark (1/100) : ℚ) * 100)
  let efficiencyScore : ℝ := min 100 ((efficiency.productivity_multiplier : ℚ) * (625/100))
  0.30 * paperScore + 0.30 * carbonScore + 0.25 * efficiencyScore + 0.15 * scaleScore totalDocs

/-- The green-score formula exactly as the specification words it (spec-side
definition for the refinement claim): scale bonus `min(100, log2(count+1)·25)`
with no `max(count, 1)` guard. -/
noncomputable def greenScoreSpecFormula (paperSub carbonSub efficiencySub : ℝ) (count : ℕ) : ℝ :=
  0.30 * paperSub + 0.30 * carbonSub + 0.25 * efficiencySub
    + 0.15 * min 100 (Real.logb 2 ((count : ℝ) + 1) * 25)

/-- The green-score formula with the scale bonus the code actually computes
(spec-side definition for the amended claim). -/
noncomputable def greenScoreAmendedFormula (paperSub carbonSub efficiencySub : ℝ) (count : ℕ) : ℝ :=
  0.30 * paperSub + 0.30 * carbonSub + 0.25 * efficiencySub + 0.15 * scaleScore count

/-- The paper sub-score as `computeGreenScore` derives it. -/
def paperSubScore (cfg : ScoringConfig) (paper : PaperImpact) : ℚ :=
  min 100 (((paper.pages_saved : ℚ) / max ((cfg.paper_pages_per_policy : ℚ) * AVG_YEARLY_POLICIES_MSME) 1) * 100)

/-- The carbon sub-score as `computeGreenScore` derives it. -/
def carbonSubScore (cfg : ScoringConfig) (carbon : CarbonImpact) : ℚ :=
  min 100 ((carbon.net_co2_saved_kg / max (cfg.avg_consultant_travel_km * AVG_YEARLY_POLICIES_MSME * cfg.co2_per_km_kg) (1/100)) * 100)

/-- The efficiency sub-score as `computeGreenScore` derives it. -/
def efficiencySubScore (efficiency : EfficiencyGains) : ℚ :=
  min 100 (efficiency.productivity_multiplier * (625/100))

end Sustainability

namespace ImpactEngine

/-! ### `impact_engine.py` — tables, data models -/

/-- One row of `SECTOR_BENCHMARKS`. -/
structure SectorBenchmarkData where
  avg_risk_score : ℚ
  avg_compliance_cost_inr : ℚ
  avg_penalties_year_inr : ℚ
  digital_adoption : ℚ
  avg_schemes_utilized : ℚ
deriving DecidableEq, Repr

def sectorBenchmarks (sector : String) : SectorBenchmarkData :=
  if sector = "manufacturing" then
    { avg_risk_score := 62, avg_compliance_cost_inr := 85000,
      avg_penalties_year_inr := 150000, digital_adoption := 35/100, avg_schemes_utilized := 12/10 }
  else if sector = "service" then
    { avg_risk_score := 48, avg_compliance_cost_inr := 55000,
      avg_penalties_year_inr := 80000, digital_adoption := 55/100, avg_schemes_utilized := 15/10 }
  else if sector = "trading" then
    { avg_risk_score := 55, avg_compliance_cost_inr := 65000,
      avg_penalties_year_inr := 120000, digital_adoption := 40/100, avg_schemes_utilized := 8/10 }
  else if sector = "handicraft" then
    { avg_risk_score := 40, avg_compliance_cost_inr := 35000,
      avg_penalties_year_inr := 50000, digital_adoption := 20/100, avg_schemes_utilized := 5/10 }
  else
    { avg_risk_score := 52, avg_compliance_cost_inr := 60000,
      avg_penalties_year_inr := 100000, digital_adoption := 38/100, avg_schemes_utilized := 1 }

/-- Source `REGIONAL_STRICTNESS` of the impact engine (its own copy, with its own
values), in insertion order. -/
def regionalStrictness : List (String × ℚ) :=
  [("maharashtra", 125/100), ("karnataka", 120/100), ("tamil_nadu", 115/100),
   ("telangana", 115/100), ("delhi", 130/100), ("gujarat", 110/100),
   ("uttar_pradesh", 90/100), ("west_bengal", 95/100), ("rajasthan", 90/100),
   ("andhra_pradesh", 105/100), ("kerala", 110/100), ("punjab", 1),
   ("default", 1)]

/-- Source `_resolve_sector`. -/
def resolveSector (profile : BusinessProfile) : String :=
  let sector := lowerStr profile.sectorText
  if containsSub sector "manufactur" || containsSub sector "factory" || containsSub sector "production" then "manufacturing"
  else if containsSub sector "service" || containsSub sector "consult" || containsSub sector "it" || containsSub sector "software" then "service"
  else if containsSub sector "trad" || containsSub sector "retail" || containsSub sector "wholesale" || containsSub sector "shop" then "trading"
  else if containsSub sector "craft" || containsSub sector "handloom" || containsSub sector "artisan" || containsSub sector "handicraft" then "handicraft"
  else "default"

/-- Source `_resolve_region`: exact key, then partial (substring either way) match
in insertion order, then `"default"`. -/
def resolveRegion (profile : BusinessProfile) : String :=
  let state := underscoreSpaces (lowerStr profile.stateText)
  if (regionalStrictness.lookup state).isSome then state
  else
    match regionalStrictness.find? (fun kv => containsSub state kv.1 || containsSub kv.1 state) with
    | some kv => kv.1
    | none => "default"

/-- Output dict of `ComplianceRiskScorer` as read by `calculate` (field
default = the `.get` default). -/
structure RiskData where
  overall_score : ℝ := 50

/-- Output dict of `SustainabilityEngine` as read by `calculate`. -/
structure SusData where
  green_score : ℝ := 0
  co2_saved_kg : ℝ := 0
  hours_saved : ℝ := 0
  productivity_multiplier : ℝ := 1
  cost_saved_inr : ℝ := 0
  paper_saved : ℝ := 0

/-- Output dict of `ProfitabilityOptimizer` as read by `calculate`. -/
structure ProfData where
  roi_multiplier : ℝ := 1
  total_roi_inr : ℝ := 0
  penalty_avoidance_inr : ℝ := 0
  scheme_benefits_inr : ℝ := 0

/-- Source `ImpactBreakdown` dataclass. -/
structure ImpactBreakdown where
  compliance_risk_reduction : ℝ
  profitability_gain : ℝ
  sustainability_improvement : ℝ
  time_saved : ℝ
  cost_saved : ℝ

/-- Source `GRCAlignment` dataclass. -/
structure GRCAlignment where
  governance_score : ℝ
  risk_management_score : ℝ
  compliance_score : ℝ
  sustainability_score : ℝ
  overall_grc_readiness : String

/-- Source `ImpactReport`, restricted to the computed fields the verified claims
refer to.  The projection, benchmark-comparison strings, narrative,
key-metrics map and ISO timestamp are presentational derivations of the same
numbers and are not modelled. -/
structure ImpactReport where
  impact_score : ℝ
  impact_grade : String
  breakdown : ImpactBreakdown
  grc_alignment : GRCAlignment

/-- Weights of the composite impact score (class constants, `must sum to 1.0`). -/
noncomputable def W_RISK : ℝ := 30/100
noncomputable def W_PROFIT : ℝ := 25/100
noncomputable def W_SUSTAINABILITY : ℝ := 20/100
noncomputable def W_TIME : ℝ := 15/100
noncomputable def W_COST : ℝ := 10/100

/-! ### Sub-score calculators -/

/-- Source `_risk_reduction_score`: sigmoid mapping with capped regional boost. -/
noncomputable def riskReductionScore (rawRisk regionalMult : ℝ) : ℝ :=
  let x := (rawRisk - 30) / 15
  let sigmoid := 100 / (1 + Real.exp (-x))
  min 100 (sigmoid * min regionalMult 1.2)

/-- Source `_profitability_score`. -/
noncomputable def profitabilityScore (roiMult totalRoi penalties schemes : ℝ)
    (bench : SectorBenchmarkData) : ℝ :=
  let roiComponent := min 100 (30 * Real.logb 10 (max roiMult 1 + 1))
  let penaltyComponent := min 100 (penalties / max (bench.avg_penalties_year_inr : ℝ) 1 * 80)
  let schemeComponent := min 100 (schemes / 5000000 * 100)
  roiComponent * 0.4 + penaltyComponent * 0.3 + schemeComponent * 0.3

/-- Source `_sustainability_score`. -/
noncomputable def sustainabilityScore (greenScore co2Kg : ℝ) : ℝ :=
  let co2Component := min 100 (40 * Real.logb 10 (max co2Kg 0.01 + 1))
  greenScore * 0.7 + co2Component * 0.3

/-- Source `_time_saved_score`. -/
noncomputable def timeSavedScore (hours productivity : ℝ) (numPolicies : ℕ) : ℝ :=
  let perPolicySaved := hours / (max numPolicies 1 : ℕ)
  let timeComponent := min 100 (perPolicySaved / 7.5 * 80)
  let prodBonus := min 20 ((productivity - 1) * 4)
  min 100 (timeComponent + prodBonus)

/-- Source `_cost_saved_score`. -/
noncomputable def costSavedScore (costInr : ℝ) (bench : SectorBenchmarkData)
    (numPolicies : ℕ) : ℝ :=
  let perPolicy := costInr / (max numPolicies 1 : ℕ)
  min 100 (perPolicy / max ((bench.avg_compliance_cost_inr : ℝ) / 12) 1 * 80)

/-- Source `_grade`: `IMPACT_GRADES` thresholds in descending order. -/
noncomputable def impactGrade (score : ℝ) : String :=
  if score ≥ 90 then "TRANSFORMATIVE"
  else if score ≥ 75 then "HIGH"
  else if score ≥ 55 then "MODERATE"
  else if score ≥ 35 then "LOW"
  else if score ≥ 0 then "MINIMAL"
  else "MINIMAL"

/-- Source `_grc_alignment`. -/
noncomputable def grcAlignment (riskScore profitScore sustainabilityGrc impactScore : ℝ) : GRCAlignment :=
  let governance := min 100 (impactScore * 0.6 + profitScore * 0.4)
  let riskMgmt := min 100 (riskScore * 1.1)
  let compliance := min 100 (riskScore * 0.5 + impactScore * 0.5)
  let avg := (governance + riskMgmt + compliance + sustainabilityGrc) / 4
  { governance_score := roundTo1 governance
    risk_management_score := roundTo1 riskMgmt
    compliance_score := roundTo1 compliance
    sustainability_score := roundTo1 sustainabilityGrc
    overall_grc_readiness :=
      if avg ≥ 75 then "Enterprise-Ready" else if avg ≥ 55 then "Growth-Stage" else "Foundation" }

/-- The weighted composite before the regional multiplier and the 100-clamp
(lines 265–271 of `impact_engine.py`). -/
noncomputable def preImpactScore (riskData : RiskData) (susData : SusData) (profData : ProfData)
    (businessProfile : Option BusinessProfile) (numPolicies : ℕ) : ℝ :=
  let profile := businessProfile.getD {}
  let regionalMultiplier := ((regionalStrictness.lookup (resolveRegion profile)).getD 1 : ℚ)
  let bench := sectorBenchmarks (resolveSector profile)
  W_RISK * riskReductionScore riskData.overall_score regionalMultiplier
    + W_PROFIT * profitabilityScore profData.roi_multiplier profData.total_roi_inr
        profData.penalty_avoidance_inr profData.scheme_benefits_inr bench
    + W_SUSTAINABILITY * sustainabilityScore susData.green_score susData.co2_saved_kg
    + W_TIME * timeSavedScore susData.hours_saved susData.productivity_multiplier numPolicies
    + W_COST * costSavedScore susData.cost_saved_inr bench numPolicies

/-- Source `ImpactEngine.calculate` (computed fields; see `ImpactReport`). -/
noncomputable def calculate (riskData : RiskData) (susData : SusData) (profData : ProfData)
    (businessProfile : Option BusinessProfile) (numPolicies : ℕ := 1) : ImpactReport :=
  let profile := businessProfile.getD {}
  let regionalMultiplier := ((regionalStrictness.lookup (resolveRegion profile)).getD 1 : ℚ)
  let bench := sectorBenchmarks (resolveSector profile)
  let riskReduction := riskReductionScore riskData.overall_score regionalMultiplier
  let profitability := profitabilityScore profData.roi_multiplier profData.total_roi_inr
    profData.penalty_avoidance_inr profData.scheme_benefits_inr bench
  let sustainability := sustainabilityScore susData.green_score susData.co2_saved_kg
  let timeScore := timeSavedScore susData.hours_saved susData.productivity_multiplier numPolicies
  let costScore := costSavedScore susData.cost_saved_inr bench numPolicies
  let breakdown : ImpactBreakdown :=
    { compliance_risk_reduction := roundTo1 riskReduction
      profitability_gain := roundTo1 profitability
      sustainability_improvement := roundTo1 sustainability
      time_saved := roundTo1 timeScore
      cost_saved := roundTo1 costScore }
  let impactScore := roundTo1 (min 100 (preImpactScore riskData susData profData businessProfile numPolicies * min (regionalMultiplier : ℝ) 1.15))
  { impact_score := impactScore
    impact_grade := impactGrade impactScore
    breakdown := breakdown
    grc_alignment := grcAlignment riskReduction profitability sustainability impactScore }

end ImpactEngine

/-! ## Concrete inputs used by the verification statements -/

/-- A `ScoringConfig` whose four risk weights sum to 2.0 instead of 1.0. -/
def badWeightConfig : ScoringConfig :=
  { w_severity := 1/2, w_penalty := 1/2, w_deadline := 1/2, w_frequency := 1/2 }

/-- Scenario A obligation: CRIMINAL severity, deadline two days away, DAILY
frequency. -/
def scenarioAObligation : ComplianceRisk.ObligationInput :=
  { obligation := "Obtain factory operating license"
    severity_if_ignored := "CRIMINAL"
    deadline := .date 2
    frequency := "DAILY" }

/-- A penalties list whose amount text is a bare dot: the numeric regex
`[\d.]+` matches `"."`, and `float(".")` raises `ValueError`. -/
def dotPenaltyAnalysis : ComplianceRisk.AnalysisInput :=
  { obligations := [{ obligation := "File annual return" }]
    penalties := [{ violation := "Late filing of annual return", penalty_amount := "." }] }

/-- An analysis with no obligations, penalties or actions. -/
def emptyAnalysis : ComplianceRisk.AnalysisInput := {}

/-- An analysis whose single obligation has a keyword (non-date) deadline. -/
def keywordDeadlineAnalysis : ComplianceRisk.AnalysisInput :=
  { obligations := [{ obligation := "Renew trade license"
                      severity_if_ignored := "FINE"
                      deadline := .text "within 30 days"
                      frequency := "ANNUALLY" }] }

/-- Does a deadline carry no parsed date (so its score cannot depend on the
current time)? -/
def ComplianceRisk.DeadlineSpec.nonDate : ComplianceRisk.DeadlineSpec → Bool
  | .date _ => false
  | .text _ => true

/-- Report with its generation timestamp blanked, for comparing two runs of
the scorer made at different times. -/
def ComplianceRisk.eraseTime (r : ComplianceRisk.ComplianceRiskReport) :
    ComplianceRisk.ComplianceRiskReport :=
  { r with generated_at := 0 }

/-- An overdue, high-severity obligation risk (concrete input for the
recommendation-ordering statements). -/
noncomputable def overdueHighRisk : ComplianceRisk.ObligationRisk :=
  { obligation_name := "GST return filing"
    severity_score := 90
    penalty_score := 30
    deadline_score := 100
    frequency_score := 30
    weighted_score := 95
    risk_band := .CRITICAL
    days_remaining := some (-3) }

/-- Zero-document paper metrics (what `SustainabilityEngine.calculate`
produces for a zero-document session). -/
def zeroPaper : Sustainability.PaperImpact := ⟨0, 0, 0, 0⟩

/-- Zero-document carbon metrics. -/
def zeroCarbon : Sustainability.CarbonImpact := ⟨0, 0, 0, 0⟩

/-- Zero-document efficiency metrics (productivity multiplier defaults to 1
when no digital hours were spent). -/
def zeroEfficiency : Sustainability.EfficiencyGains := ⟨0, 0, 1⟩

/-- Scenario D risk report input: `overall_score = 0`. -/
noncomputable def zeroedRiskData : ImpactEngine.RiskData := { overall_score := 0 }

/-- Scenario D sustainability input: every published saving is zero (the
`productivity_multiplier` key is absent, so `calculate` reads its default 1.0). -/
noncomputable def zeroedSusData : ImpactEngine.SusData :=
  { green_score := 0, co2_saved_kg := 0, hours_saved := 0
    productivity_multiplier := 1, cost_saved_inr := 0, paper_saved := 0 }

/-- Scenario D profitability input: all-zero figures, including
`roi_multiplier = 0`. -/
noncomputable def zeroedProfData : ImpactEngine.ProfData :=
  { roi_multiplier := 0, total_roi_inr := 0, penalty_avoidance_inr := 0, scheme_benefits_inr := 0 }

/-- The impact report for the all-zero sub-reports of scenario D (no business
profile, one policy). -/
noncomputable def zeroedImpactReport : ImpactEngine.ImpactReport :=
  ImpactEngine.calculate zeroedRiskData zeroedSusData zeroedProfData none 1

/-- Risk input for the breakdown-recomputation counterexample. -/
noncomputable def recomputeRiskData : ImpactEngine.RiskData := { overall_score := 100 }

/-- Sustainability input for the breakdown-recomputation counterexample. -/
noncomputable def recomputeSusData : ImpactEngine.SusData :=
  { green_score := 100, co2_saved_kg := 999999, hours_saved := 7.5
    productivity_multiplier := 1, cost_saved_inr := 5000, paper_saved := 0 }

/-- Profitability input for the breakdown-recomputation counterexample. -/
noncomputable def recomputeProfData : ImpactEngine.ProfData :=
  { roi_multiplier := 999999, total_roi_inr := 0
    penalty_avoidance_inr := 12345, scheme_benefits_inr := 1000000 }

/-- Maharashtra-based profile for the breakdown-recomputation counterexample. -/
def maharashtraProfile : BusinessProfile := { state := some "maharashtra" }

/-! ## Helper lemmas -/

theorem abs_roundTo1_sub {α : Type} [LinearOrderedField α] [FloorRing α] (x : α) :
    |roundTo1 x - x| ≤ 1/20 := by
  have h := abs_sub_round (x * 10)
  have hx : roundTo1 x - x = (((round (x * 10) : ℤ) : α) - x * 10) / 10 := by
    unfold roundTo1; ring
  rw [hx, abs_div, abs_sub_comm]
  have h10 : |(10 : α)| = 10 := by
    rw [abs_of_pos]; norm_num
  rw [h10]
  rw [div_le_iff (by norm_num : (0:α) < 10)]
  linarith

theorem roundTo1_lt_of_lt {α : Type} [LinearOrderedField α] [FloorRing α]
    {x b : α} (h : x < b - 1/20) : roundTo1 x < b := by
  have := abs_roundTo1_sub x
  rw [abs_le] at this
  linarith [this.1, this.2]

theorem lt_roundTo1_of_lt {α : Type} [LinearOrderedField α] [FloorRing α]
    {x b : α} (h : b + 1/20 < x) : b < roundTo1 x := by
  have := abs_roundTo1_sub x
  rw [abs_le] at this
  linarith [this.1, this.2]

theorem roundTo1_eq {α : Type} [LinearOrderedField α] [FloorRing α] (x : α) (n : ℤ)
    (h1 : (n : α) ≤ x * 10 + 1/2) (h2 : x * 10 + 1/2 < n + 1) : roundTo1 x = (n : α) / 10 := by
  unfold roundTo1
  rw [round_eq]
  have : ⌊x * 10 + 1/2⌋ = n := by
    rw [Int.floor_eq_iff]
    · exact ⟨h1, h2⟩
  rw [this]

/-- C3 (amended): the shipped default weight sets do sum to 1.0 (the four
risk weights and the five impact weights) and the default band thresholds
are strictly monotone — but nothing validates them anywhere. -/
theorem default_weight_sets_sum_to_one :
    (ComplianceRisk.initWeights defaultScoringConfig).sum = 1
    ∧ ImpactEngine.W_RISK + ImpactEngine.W_PROFIT + ImpactEngine.W_SUSTAINABILITY
        + ImpactEngine.W_TIME + ImpactEngine.W_COST = 1
    ∧ defaultScoringConfig.risk_high < defaultScoringConfig.risk_critical
    ∧ defaultScoringConfig.risk_medium < defaultScoringConfig.risk_high
    ∧ defaultScoringConfig.risk_low < defaultScoringConfig.risk_medium := by
  refine ⟨?_, ?_, ?_, ?_, ?_⟩ <;>
    norm_num [ComplianceRisk.initWeights, ComplianceRisk.RiskWeights.sum,
      defaultScoringConfig, ImpactEngine.W_RISK, ImpactEngine.W_PROFIT,
      ImpactEngine.W_SUSTAINABILITY, ImpactEngine.W_TIME, ImpactEngine.W_COST]

/-- C3 (counterexample): a configuration whose weights sum to 2.0 is accepted
at engine construction — `__init__` copies the weights unconditionally (it has
no error path at all), and the invalid weights are then used mid-request
without any failure. -/
theorem construction_accepts_invalid_weights :
    (ComplianceRisk.initWeights badWeightConfig).sum = 2
    ∧ ComplianceRisk.initWeights badWeightConfig =
        { severity := 1/2, penalty := 1/2, deadline := 1/2, frequency := 1/2 }
    ∧ (ComplianceRisk.scoreActionAsObligation badWeightConfig
        { action := "File GST returns", priority := "HIGH" }).weighted_score = 165/2 := by
  refine ⟨?_, ?_, ?_⟩
  · norm_num [ComplianceRisk.initWeights, ComplianceRisk.RiskWeights.sum, badWeightConfig]
  · simp [ComplianceRisk.initWeights, badWeightConfig]
  · simp only [ComplianceRisk.scoreActionAsObligation, ComplianceRisk.initWeights,
      badWeightConfig]
    norm_num
    rw [roundTo1_eq (n := 825) _ (by norm_num) (by norm_num)]
    norm_num

/-- C10: on the input `"."` (no digits, but the numeric regex `[\d.]+` still
matches the bare dot) both Indian currency parsers hit `float(".")`, which
raises `ValueError` instead of returning 0.0; strings with no digits and no
dots do fall back to 0.0, and ordinary amounts parse. -/
theorem currency_parsers_raise_on_bare_dot :
    ComplianceRisk.parsePenaltyAmount "." = .error ()
    ∧ Profitability.parseAmount "." = .error ()
    ∧ ComplianceRisk.parsePenaltyAmount "" = .ok 0
    ∧ ComplianceRisk.parsePenaltyAmount "no monetary amount specified" = .ok 0
    ∧ Profitability.parseAmount "no monetary amount specified" = .ok 0 :=
  ⟨rfl, rfl, rfl, rfl, rfl⟩

/-- C6: a penalty entry whose `penalty_amount` is `"."` makes
`_parse_penalty_amount` raise `ValueError` inside `_build_penalty_map`, so
the entire `score` call aborts (one bad record kills the batch); the
documented defaults do apply when parsing merely finds nothing: empty
deadline scores 40 with null days, an unmatched penalty scores 30, and
frequency ANNUALLY scores 30. -/
theorem bad_penalty_amount_aborts_batch :
    ComplianceRisk.score defaultScoringConfig 0 dotPenaltyAnalysis none = .error ()
    ∧ ComplianceRisk.scoreDeadline 0 (.text "") = (40, none)
    ∧ ComplianceRisk.matchPenaltyScore "File annual return" [] = 30
    ∧ ComplianceRisk.normalizeFrequency (upperStr "ANNUALLY") = 30 := by
  refine ⟨?_, rfl, rfl, rfl⟩
  have hb : ComplianceRisk.buildPenaltyMap dotPenaltyAnalysis.penalties = .error () := rfl
  simp only [ComplianceRisk.score, hb, Except.map]

set_option maxHeartbeats 2000000 in
/-- C7: among date deadlines, an earlier deadline (with non-negative days
remaining) never scores below a later one, and a deadline with negative days
remaining scores exactly 100. -/
theorem deadline_urgency_monotone :
    (∀ now a b : ℤ, 0 ≤ a - now → a ≤ b →
        (ComplianceRisk.scoreDeadline now (.date b)).1
          ≤ (ComplianceRisk.scoreDeadline now (.date a)).1)
    ∧ (∀ now d : ℤ, d - now < 0 →
        ComplianceRisk.scoreDeadline now (.date d) = (100, some (d - now))) := by
  constructor
  · intro now a b h0 hab
    simp only [ComplianceRisk.scoreDeadline,
      apply_ite (fun p : ℚ × Option ℤ => p.1)]
    split_ifs <;> first | (exfalso; omega) | norm_num
  · intro now d h
    simp only [ComplianceRisk.scoreDeadline]
    rw [if_pos h]

/-- Witness for the deadline-monotonicity statement at concrete inputs. -/
theorem deadline_urgency_monotone_witness :
    (ComplianceRisk.scoreDeadline 0 (.date 40)).1 ≤ (ComplianceRisk.scoreDeadline 0 (.date 3)).1
    ∧ ComplianceRisk.scoreDeadline 0 (.date (-1)) = (100, some (-1)) :=
  ⟨deadline_urgency_monotone.1 0 3 40 (by norm_num) (by norm_num),
   by simpa using deadline_urgency_monotone.2 0 (-1) (by norm_num)⟩

/-- C5 (scenario A): a CRIMINAL-severity obligation due in two days with
DAILY frequency, scored with the default weights, no penalty list and an
absent business profile (which resolves to sector multiplier 1.05 and, via
the empty-string partial match, regional multiplier 1.20), reaches weighted
score 100 and band CRITICAL. -/
theorem scenarioA_composite_critical :
    ComplianceRisk.buildPenaltyMap [] = .ok []
    ∧ ComplianceRisk.getSectorMultiplier {} = 105/100
    ∧ ComplianceRisk.getRegionalMultiplier {} = 120/100
    ∧ (ComplianceRisk.scoreObligation defaultScoringConfig []
         (ComplianceRisk.getSectorMultiplier {}) (ComplianceRisk.getRegionalMultiplier {})
         0 scenarioAObligation).weighted_score ≥ 90
    ∧ (ComplianceRisk.scoreObligation defaultScoringConfig []
         (ComplianceRisk.getSectorMultiplier {}) (ComplianceRisk.getRegionalMultiplier {})
         0 scenarioAObligation).risk_band = .CRITICAL := by
  have hsev : ComplianceRisk.normalizeSeverity (upperStr "CRIMINAL") = 100 := rfl
  have hpen : ComplianceRisk.matchPenaltyScore "Obtain factory operating license" [] = 30 := rfl
  have hdl : ComplianceRisk.scoreDeadline 0 (.date 2) = (95, some 2) := rfl
  have hfreq : ComplianceRisk.normalizeFrequency (upperStr "DAILY") = 100 := rfl
  have hs : ComplianceRisk.getSectorMultiplier {} = 105/100 := rfl
  have hr : ComplianceRisk.getRegionalMultiplier {} = 120/100 := rfl
  have hadj : min (100:ℚ) ((35/100*100 + 25/100*30 + 25/100*95 + 15/100*100)
      * min ((105/100) * (120/100)) (140/100)) = 100 := by
    rw [min_def, min_def]
    norm_num
  refine ⟨rfl, hs, hr, ?_, ?_⟩
  · simp only [ComplianceRisk.scoreObligation, scenarioAObligation, hs, hr,
      ComplianceRisk.initWeights, defaultScoringConfig, hsev, hpen, hdl, hfreq]
    simp only [hadj]
    rw [roundTo1_eq (n := 1000) _ (by norm_num) (by norm_num)]
    norm_num
  · simp only [ComplianceRisk.scoreObligation, scenarioAObligation, hs, hr,
      ComplianceRisk.initWeights, defaultScoringConfig, hsev, hpen, hdl, hfreq]
    simp only [hadj]
    norm_num [ComplianceRisk.band]

theorem generateRecommendations_decomp (risks : List ComplianceRisk.ObligationRisk)
    (b : ComplianceRisk.RiskBand) :
    ComplianceRisk.generateRecommendations risks b =
      (if b = .CRITICAL ∨ b = .HIGH then [ComplianceRisk.urgentRec] else [])
      ++ (if (risks.filter ComplianceRisk.isOverdue).length > 0
            then [ComplianceRisk.overdueRec (risks.filter ComplianceRisk.isOverdue).length] else [])
      ++ (if (risks.filter ComplianceRisk.isSoonDue).length > 0
            then [ComplianceRisk.soonRec (risks.filter ComplianceRisk.isSoonDue).length] else [])
      ++ (if (risks.filter (fun r => r.severity_score ≥ 75)).length > 0
            then [ComplianceRisk.highSevRec (String.intercalate ", "
              (((risks.filter (fun r => r.severity_score ≥ 75)).take 3).map
                (fun r => r.obligation_name.take 40)))] else [])
      ++ [ComplianceRisk.genericRec] := by
  simp only [ComplianceRisk.generateRecommendations]
  split_ifs <;> simp

/-- C8 (amended): the recommendation list is, in order, an urgent-band
warning (present exactly when the overall band is CRITICAL or HIGH), then the
overdue-items line, then the due-within-30-days line, then the high-severity
line (each present exactly when its item set is non-empty), and the generic
best-practice line always last. -/
theorem recommendations_priority_order (risks : List ComplianceRisk.ObligationRisk)
    (b : ComplianceRisk.RiskBand) :
    ComplianceRisk.generateRecommendations risks b =
      (if b = .CRITICAL ∨ b = .HIGH then [ComplianceRisk.urgentRec] else [])
      ++ (if (risks.filter ComplianceRisk.isOverdue).length > 0
            then [ComplianceRisk.overdueRec (risks.filter ComplianceRisk.isOverdue).length] else [])
      ++ (if (risks.filter ComplianceRisk.isSoonDue).length > 0
            then [ComplianceRisk.soonRec (risks.filter ComplianceRisk.isSoonDue).length] else [])
      ++ (if (risks.filter (fun r => r.severity_score ≥ 75)).length > 0
            then [ComplianceRisk.highSevRec (String.intercalate ", "
              (((risks.filter (fun r => r.severity_score ≥ 75)).take 3).map
                (fun r => r.obligation_name.take 40)))] else [])
      ++ [ComplianceRisk.genericRec]
    ∧ (ComplianceRisk.generateRecommendations risks b).getLast? = some ComplianceRisk.genericRec := by
  refine ⟨generateRecommendations_decomp risks b, ?_⟩
  rw [generateRecommendations_decomp]
  split_ifs <;> rfl

/-- C8 (counterexample): with an overdue obligation and a CRITICAL overall
band, the first recommendation is the band-urgency warning, not the overdue
line — so the overdue recommendation is not first. -/
theorem urgent_line_precedes_overdue_line :
    (ComplianceRisk.generateRecommendations [overdueHighRisk] .CRITICAL).head?
        = some ComplianceRisk.urgentRec
    ∧ ComplianceRisk.urgentRec ≠ ComplianceRisk.overdueRec 1
    ∧ (ComplianceRisk.generateRecommendations [overdueHighRisk] .CRITICAL).head?
        ≠ some (ComplianceRisk.overdueRec 1) := by
  have hhead : (ComplianceRisk.generateRecommendations [overdueHighRisk] .CRITICAL).head?
      = some ComplianceRisk.urgentRec := by
    rw [generateRecommendations_decomp]
    norm_num [overdueHighRisk, ComplianceRisk.isOverdue, ComplianceRisk.isSoonDue]
  have hne : ComplianceRisk.urgentRec ≠ ComplianceRisk.overdueRec 1 := by decide
  exact ⟨hhead, hne, by rw [hhead]; simpa using hne⟩

theorem logb_two_two : Real.logb 2 2 = 1 :=
  Real.logb_self_eq_one (by norm_num)

theorem scaleScore_zero : Sustainability.scaleScore 0 = 25 := by
  unfold Sustainability.scaleScore
  norm_num [logb_two_two]

theorem computeGreenScore_eq_amended (cfg : ScoringConfig)
    (paper : Sustainability.PaperImpact) (carbon : Sustainability.CarbonImpact)
    (efficiency : Sustainability.EfficiencyGains) (totalDocs : ℕ) :
    Sustainability.computeGreenScore cfg paper carbon efficiency totalDocs
      = Sustainability.greenScoreAmendedFormula
          ((Sustainability.paperSubScore cfg paper : ℚ) : ℝ)
          ((Sustainability.carbonSubScore cfg carbon : ℚ) : ℝ)
          ((Sustainability.efficiencySubScore efficiency : ℚ) : ℝ) totalDocs := by
  simp only [Sustainability.computeGreenScore, Sustainability.greenScoreAmendedFormula,
    Sustainability.paperSubScore, Sustainability.carbonSubScore,
    Sustainability.efficiencySubScore]
  push_cast
  ring_nf

/-- C9 (amended): the green score is
`0.30·paper + 0.30·carbon + 0.25·efficiency + 0.15·scale_bonus` with
`scale_bonus = min(100, log2(max(count,1)+1)·25)`; in particular for a
zero-document session the scale bonus is `log2(2)·25 = 25`, not 0. -/
theorem green_score_weighted_formula (cfg : ScoringConfig)
    (paper : Sustainability.PaperImpact) (carbon : Sustainability.CarbonImpact)
    (efficiency : Sustainability.EfficiencyGains) (totalDocs : ℕ) :
    Sustainability.computeGreenScore cfg paper carbon efficiency totalDocs
      = Sustainability.greenScoreAmendedFormula
          ((Sustainability.paperSubScore cfg paper : ℚ) : ℝ)
          ((Sustainability.carbonSubScore cfg carbon : ℚ) : ℝ)
          ((Sustainability.efficiencySubScore efficiency : ℚ) : ℝ) totalDocs
    ∧ Sustainability.scaleScore 0 = 25 :=
  ⟨computeGreenScore_eq_amended cfg paper carbon efficiency totalDocs, scaleScore_zero⟩

/-- C9 (counterexample): at `count = 0` the code's scale bonus is 25 (because
of the `max(total_docs, 1)` guard), so the green score of a zero-document
session is 85/16 = 5.3125, while the specified formula (scale bonus
`log2(0+1)·25 = 0`) gives 25/16 = 1.5625. -/
theorem green_score_zero_docs_differs_from_spec_formula :
    Sustainability.computeGreenScore defaultScoringConfig zeroPaper zeroCarbon zeroEfficiency 0 = 85/16
    ∧ Sustainability.greenScoreSpecFormula
        ((Sustainability.paperSubScore defaultScoringConfig zeroPaper : ℚ) : ℝ)
        ((Sustainability.carbonSubScore defaultScoringConfig zeroCarbon : ℚ) : ℝ)
        ((Sustainability.efficiencySubScore zeroEfficiency : ℚ) : ℝ) 0 = 25/16
    ∧ Sustainability.computeGreenScore defaultScoringConfig zeroPaper zeroCarbon zeroEfficiency 0
        ≠ Sustainability.greenScoreSpecFormula
            ((Sustainability.paperSubScore defaultScoringConfig zeroPaper : ℚ) : ℝ)
            ((Sustainability.carbonSubScore defaultScoringConfig zeroCarbon : ℚ) : ℝ)
            ((Sustainability.efficiencySubScore zeroEfficiency : ℚ) : ℝ) 0 := by
  have hsub1 : Sustainability.paperSubScore defaultScoringConfig zeroPaper = 0 := by
    norm_num [Sustainability.paperSubScore, zeroPaper, defaultScoringConfig,
      Sustainability.AVG_YEARLY_POLICIES_MSME, min_def, max_def]
  have hsub2 : Sustainability.carbonSubScore defaultScoringConfig zeroCarbon = 0 := by
    norm_num [Sustainability.carbonSubScore, zeroCarbon, defaultScoringConfig,
      Sustainability.AVG_YEARLY_POLICIES_MSME, min_def, max_def]
  have hsub3 : Sustainability.efficiencySubScore zeroEfficiency = 25/4 := by
    norm_num [Sustainability.efficiencySubScore, zeroEfficiency, min_def]
  have hcode : Sustainability.computeGreenScore defaultScoringConfig zeroPaper zeroCarbon
      zeroEfficiency 0 = 85/16 := by
    rw [computeGreenScore_eq_amended defaultScoringConfig zeroPaper zeroCarbon zeroEfficiency 0]
    rw [hsub1, hsub2, hsub3]
    unfold Sustainability.greenScoreAmendedFormula
    rw [scaleScore_zero]
    push_cast
    norm_num
  have hspec : Sustainability.greenScoreSpecFormula
      ((Sustainability.paperSubScore defaultScoringConfig zeroPaper : ℚ) : ℝ)
      ((Sustainability.carbonSubScore defaultScoringConfig zeroCarbon : ℚ) : ℝ)
      ((Sustainability.efficiencySubScore zeroEfficiency : ℚ) : ℝ) 0 = 25/16 := by
    rw [hsub1, hsub2, hsub3]
    unfold Sustainability.greenScoreSpecFormula
    norm_num [Real.logb_one, min_def]
  refine ⟨hcode, hspec, ?_⟩
  rw [hcode, hspec]
  norm_num

theorem exp_two_lt_eight : Real.exp 2 < 8 := by
  have h1 := Real.exp_one_lt_d9
  have h0 := Real.exp_pos 1
  have h2 : Real.exp 2 = Real.exp 1 * Real.exp 1 := by
    rw [← Real.exp_add]; norm_num
  nlinarith

theorem three_lt_exp_two : (3:ℝ) < Real.exp 2 := by
  have := Real.add_one_lt_exp (x := 2) (by norm_num)
  linarith

theorem five_le_exp_fourteen_thirds : (5:ℝ) ≤ Real.exp (14/3) := by
  have := Real.add_one_le_exp (14/3 : ℝ)
  linarith

theorem logb_ten_two_bounds : 0 ≤ Real.logb 10 2 ∧ Real.logb 10 2 ≤ 1 := by
  constructor
  · exact Real.logb_nonneg (by norm_num) (by norm_num)
  · have h := Real.logb_le_logb_of_le (b := 10) (by norm_num) (by norm_num : (0:ℝ) < 2)
      (by norm_num : (2:ℝ) ≤ 10)
    rwa [Real.logb_self_eq_one (by norm_num)] at h

theorem logb_ten_small_bounds : 0 ≤ Real.logb 10 1.01 ∧ Real.logb 10 1.01 ≤ 1 := by
  constructor
  · exact Real.logb_nonneg (by norm_num) (by norm_num)
  · have h := Real.logb_le_logb_of_le (b := 10) (by norm_num) (by norm_num : (0:ℝ) < 1.01)
      (by norm_num : (1.01:ℝ) ≤ 10)
    rwa [Real.logb_self_eq_one (by norm_num)] at h

theorem logb_ten_million : Real.logb 10 1000000 = 6 := by
  have h : (1000000:ℝ) = 10 ^ (6:ℕ) := by norm_num
  have hlog : Real.log 10 ≠ 0 := ne_of_gt (Real.log_pos (by norm_num))
  rw [h]
  simp only [Real.logb, Real.log_pow]
  field_simp

theorem weighted_roundTo1_bound (a b c d e : ℝ) :
    |(30/100 : ℝ) * roundTo1 a + 25/100 * roundTo1 b + 20/100 * roundTo1 c
      + 15/100 * roundTo1 d + 10/100 * roundTo1 e
      - (30/100 * a + 25/100 * b + 20/100 * c + 15/100 * d + 10/100 * e)| ≤ 1/20 := by
  have ha := abs_roundTo1_sub a
  have hb := abs_roundTo1_sub b
  have hc := abs_roundTo1_sub c
  have hd := abs_roundTo1_sub d
  have he := abs_roundTo1_sub e
  rw [abs_le] at ha hb hc hd he ⊢
  constructor <;> nlinarith [ha.1, ha.2, hb.1, hb.2, hc.1, hc.2, hd.1, hd.2, he.1, he.2]

/-- C2 (amended): recomputing the weighted sum from the report's published
breakdown matches the pre-multiplier composite only to within 0.05 — the
breakdown fields are rounded to one decimal before publication, so agreement
to 1e-6 cannot be expected (see the counterexample). -/
theorem impact_breakdown_recompute_bound (rd : ImpactEngine.RiskData)
    (sd : ImpactEngine.SusData) (pd : ImpactEngine.ProfData)
    (prof : Option BusinessProfile) (np : ℕ) :
    |ImpactEngine.W_RISK * (ImpactEngine.calculate rd sd pd prof np).breakdown.compliance_risk_reduction
      + ImpactEngine.W_PROFIT * (ImpactEngine.calculate rd sd pd prof np).breakdown.profitability_gain
      + ImpactEngine.W_SUSTAINABILITY * (ImpactEngine.calculate rd sd pd prof np).breakdown.sustainability_improvement
      + ImpactEngine.W_TIME * (ImpactEngine.calculate rd sd pd prof np).breakdown.time_saved
      + ImpactEngine.W_COST * (ImpactEngine.calculate rd sd pd prof np).breakdown.cost_saved
      - ImpactEngine.preImpactScore rd sd pd prof np| ≤ 1/20 := by
  simp only [ImpactEngine.calculate, ImpactEngine.preImpactScore,
    ImpactEngine.W_RISK, ImpactEngine.W_PROFIT, ImpactEngine.W_SUSTAINABILITY,
    ImpactEngine.W_TIME, ImpactEngine.W_COST]
  exact weighted_roundTo1_bound _ _ _ _ _

theorem riskReduction_at_c2 : ImpactEngine.riskReductionScore 100 ((125/100 : ℚ) : ℝ) = 100 := by
  unfold ImpactEngine.riskReductionScore
  have hcast : (((125/100 : ℚ)) : ℝ) = 1.25 := by push_cast; norm_num
  rw [hcast]
  have harg : ((100:ℝ) - 30) / 15 = 14/3 := by norm_num
  rw [harg]
  have hexp : Real.exp (-(14/3) : ℝ) ≤ 1/5 := by
    have h5 := five_le_exp_fourteen_thirds
    calc Real.exp (-(14/3) : ℝ) = (Real.exp (14/3))⁻¹ := Real.exp_neg _
    _ = 1 / Real.exp (14/3) := by rw [one_div]
    _ ≤ 1/5 := one_div_le_one_div_of_le (by norm_num) h5
  have hmin : min (1.25 : ℝ) 1.2 = 1.2 := by norm_num [min_def]
  rw [hmin]
  have hpos : (0:ℝ) < 1 + Real.exp (-(14/3) : ℝ) := by positivity
  have hy : (100:ℝ) ≤ 100 / (1 + Real.exp (-(14/3) : ℝ)) * 1.2 := by
    rw [div_mul_eq_mul_div, le_div_iff hpos]
    nlinarith [hexp, Real.exp_pos (-(14/3) : ℝ)]
  exact min_eq_left hy

theorem profitability_at_c2 :
    ImpactEngine.profitabilityScore 999999 0 12345 1000000
      { avg_risk_score := 52, avg_compliance_cost_inr := 60000,
        avg_penalties_year_inr := 100000, digital_adoption := 38/100,
        avg_schemes_utilized := 1 } = 122407/2500 := by
  unfold ImpactEngine.profitabilityScore
  have h1 : max (999999:ℝ) 1 + 1 = 1000000 := by norm_num [max_def]
  rw [h1, logb_ten_million]
  push_cast
  norm_num [min_def, max_def]

theorem sustainability_at_c2 : ImpactEngine.sustainabilityScore 100 999999 = 100 := by
  unfold ImpactEngine.sustainabilityScore
  have h1 : max (999999:ℝ) 0.01 + 1 = 1000000 := by norm_num [max_def]
  rw [h1, logb_ten_million]
  norm_num [min_def]

theorem timeSaved_at_c2 : ImpactEngine.timeSavedScore 7.5 1 1 = 80 := by
  unfold ImpactEngine.timeSavedScore
  norm_num [min_def]

theorem costSaved_at_c2 :
    ImpactEngine.costSavedScore 5000
      { avg_risk_score := 52, avg_compliance_cost_inr := 60000,
        avg_penalties_year_inr := 100000, digital_adoption := 38/100,
        avg_schemes_utilized := 1 } 1 = 80 := by
  unfold ImpactEngine.costSavedScore
  push_cast
  norm_num [min_def, max_def]

theorem roundTo1_hundred : roundTo1 (100:ℝ) = 100 := by
  rw [roundTo1_eq (n := 1000) _ (by norm_num) (by norm_num)]
  norm_num

theorem roundTo1_c2ps : roundTo1 ((122407:ℝ)/2500) = 49 := by
  rw [roundTo1_eq (n := 490) _ (by norm_num) (by norm_num)]
  norm_num

theorem roundTo1_eighty : roundTo1 ((80:ℝ)) = 80 := by
  rw [roundTo1_eq (n := 800) _ (by norm_num) (by norm_num)]
  norm_num

/-- C2 (counterexample): with roi 999999×, ₹12,345 penalty avoidance,
₹10L scheme benefits, full green score, 7.5h saved, ₹5,000 cost saved and a
Maharashtra profile, the profitability sub-score is 48.9628 but publishes as
49.0, so recomputing from the published breakdown gives 82.25 while the
pre-multiplier composite is 82.2407 — off by 0.0093, far beyond 1e-6. -/
theorem breakdown_recompute_exceeds_tolerance :
    ¬ (|ImpactEngine.W_RISK * (ImpactEngine.calculate recomputeRiskData recomputeSusData
          recomputeProfData (some maharashtraProfile) 1).breakdown.compliance_risk_reduction
        + ImpactEngine.W_PROFIT * (ImpactEngine.calculate recomputeRiskData recomputeSusData
            recomputeProfData (some maharashtraProfile) 1).breakdown.profitability_gain
        + ImpactEngine.W_SUSTAINABILITY * (ImpactEngine.calculate recomputeRiskData recomputeSusData
            recomputeProfData (some maharashtraProfile) 1).breakdown.sustainability_improvement
        + ImpactEngine.W_TIME * (ImpactEngine.calculate recomputeRiskData recomputeSusData
            recomputeProfData (some maharashtraProfile) 1).breakdown.time_saved
        + ImpactEngine.W_COST * (ImpactEngine.calculate recomputeRiskData recomputeSusData
            recomputeProfData (some maharashtraProfile) 1).breakdown.cost_saved
        - ImpactEngine.preImpactScore recomputeRiskData recomputeSusData recomputeProfData
            (some maharashtraProfile) 1| ≤ 1/1000000) := by
  have hreg : ImpactEngine.regionalStrictness.lookup
      (ImpactEngine.resolveRegion maharashtraProfile) = some (125/100 : ℚ) := rfl
  have hbench : ImpactEngine.sectorBenchmarks (ImpactEngine.resolveSector maharashtraProfile) =
      { avg_risk_score := 52, avg_compliance_cost_inr := 60000,
        avg_penalties_year_inr := 100000, digital_adoption := 38/100,
        avg_schemes_utilized := 1 } := rfl
  simp only [ImpactEngine.calculate, ImpactEngine.preImpactScore, Option.getD,
    recomputeRiskData, recomputeSusData, recomputeProfData, hreg, hbench,
    riskReduction_at_c2, profitability_at_c2, sustainability_at_c2,
    timeSaved_at_c2, costSaved_at_c2, roundTo1_hundred, roundTo1_c2ps, roundTo1_eighty,
    ImpactEngine.W_RISK, ImpactEngine.W_PROFIT, ImpactEngine.W_SUSTAINABILITY,
    ImpactEngine.W_TIME, ImpactEngine.W_COST]
  rw [not_le, lt_abs]
  left
  norm_num

theorem riskReduction_zero_bounds :
    40/3 < ImpactEngine.riskReductionScore 0 ((125/100 : ℚ) : ℝ)
    ∧ ImpactEngine.riskReductionScore 0 ((125/100 : ℚ) : ℝ) < 30 := by
  unfold ImpactEngine.riskReductionScore
  have hcast : (((125/100 : ℚ)) : ℝ) = 1.25 := by push_cast; norm_num
  rw [hcast]
  rw [show ((0:ℝ) - 30) / 15 = -2 by norm_num]
  simp only [neg_neg]
  have hmin : min (1.25 : ℝ) 1.2 = 1.2 := by norm_num [min_def]
  rw [hmin]
  have ht1 := three_lt_exp_two
  have ht2 := exp_two_lt_eight
  have hpos : (0:ℝ) < 1 + Real.exp 2 := by positivity
  have hupper : 100 / (1 + Real.exp 2) * 1.2 < 30 := by
    rw [div_mul_eq_mul_div, div_lt_iff hpos]
    nlinarith
  have hlower : (40/3 : ℝ) < 100 / (1 + Real.exp 2) * 1.2 := by
    rw [div_mul_eq_mul_div, lt_div_iff hpos]
    nlinarith
  constructor
  · exact lt_min (by norm_num) hlower
  · exact lt_of_le_of_lt (min_le_right _ _) hupper

theorem profitability_zero_bounds :
    0 ≤ ImpactEngine.profitabilityScore 0 0 0 0
        { avg_risk_score := 52, avg_compliance_cost_inr := 60000,
          avg_penalties_year_inr := 100000, digital_adoption := 38/100,
          avg_schemes_utilized := 1 }
    ∧ ImpactEngine.profitabilityScore 0 0 0 0
        { avg_risk_score := 52, avg_compliance_cost_inr := 60000,
          avg_penalties_year_inr := 100000, digital_adoption := 38/100,
          avg_schemes_utilized := 1 } ≤ 12 := by
  unfold ImpactEngine.profitabilityScore
  have h1 : max (0:ℝ) 1 + 1 = 2 := by norm_num [max_def]
  rw [h1]
  obtain ⟨hl0, hl1⟩ := logb_ten_two_bounds
  have hroi0 : (0:ℝ) ≤ min 100 (30 * Real.logb 10 2) := le_min (by norm_num) (by nlinarith)
  have hroi1 : min (100:ℝ) (30 * Real.logb 10 2) ≤ 30 :=
    le_trans (min_le_right _ _) (by nlinarith)
  have hpen : min (100:ℝ) (0 / max ((((100000:ℚ)) : ℝ)) 1 * 80) = 0 := by
    norm_num [min_def]
  have hsch : min (100:ℝ) (0 / 5000000 * 100) = 0 := by norm_num [min_def]
  push_cast at hpen ⊢
  rw [hpen, hsch]
  constructor <;> nlinarith

theorem sustainability_zero_bounds :
    0 ≤ ImpactEngine.sustainabilityScore 0 0
    ∧ ImpactEngine.sustainabilityScore 0 0 ≤ 12 := by
  unfold ImpactEngine.sustainabilityScore
  have h1 : max (0:ℝ) 0.01 + 1 = 1.01 := by norm_num [max_def]
  rw [h1]
  obtain ⟨hl0, hl1⟩ := logb_ten_small_bounds
  have hco0 : (0:ℝ) ≤ min 100 (40 * Real.logb 10 1.01) := le_min (by norm_num) (by nlinarith)
  have hco1 : min (100:ℝ) (40 * Real.logb 10 1.01) ≤ 40 :=
    le_trans (min_le_right _ _) (by nlinarith)
  constructor <;> nlinarith

theorem timeSaved_zero : ImpactEngine.timeSavedScore 0 1 1 = 0 := by
  unfold ImpactEngine.timeSavedScore
  norm_num [min_def]

theorem costSaved_zero :
    ImpactEngine.costSavedScore 0
      { avg_risk_score := 52, avg_compliance_cost_inr := 60000,
        avg_penalties_year_inr := 100000, digital_adoption := 38/100,
        avg_schemes_utilized := 1 } 1 = 0 := by
  unfold ImpactEngine.costSavedScore
  push_cast
  norm_num [min_def, max_def]

theorem zeroedImpact_score_bounds :
    0 < zeroedImpactReport.impact_score ∧ zeroedImpactReport.impact_score < 35 := by
  have hreg : ImpactEngine.regionalStrictness.lookup
      (ImpactEngine.resolveRegion ({} : BusinessProfile)) = some (125/100 : ℚ) := rfl
  have hbench : ImpactEngine.sectorBenchmarks (ImpactEngine.resolveSector ({} : BusinessProfile)) =
      { avg_risk_score := 52, avg_compliance_cost_inr := 60000,
        avg_penalties_year_inr := 100000, digital_adoption := 38/100,
        avg_schemes_utilized := 1 } := rfl
  have hcast : (((125/100 : ℚ)) : ℝ) = 1.25 := by push_cast; norm_num
  have hmin : min (1.25 : ℝ) 1.15 = 1.15 := by norm_num [min_def]
  simp only [zeroedImpactReport, ImpactEngine.calculate, ImpactEngine.preImpactScore,
    zeroedRiskData, zeroedSusData, zeroedProfData, Option.getD, hreg, hbench,
    timeSaved_zero, costSaved_zero, hcast, hmin,
    ImpactEngine.W_RISK, ImpactEngine.W_PROFIT, ImpactEngine.W_SUSTAINABILITY,
    ImpactEngine.W_TIME, ImpactEngine.W_COST]
  obtain ⟨hrr1, hrr2⟩ := riskReduction_zero_bounds
  obtain ⟨hps1, hps2⟩ := profitability_zero_bounds
  obtain ⟨hss1, hss2⟩ := sustainability_zero_bounds
  rw [hcast] at hrr1 hrr2
  constructor
  · apply lt_roundTo1_of_lt
    apply lt_min
    · norm_num
    · nlinarith
  · apply roundTo1_lt_of_lt
    refine lt_of_le_of_lt (min_le_right _ _) ?_
    nlinarith

/-- C1 (amended): for all-zero risk, sustainability and profitability
sub-reports the impact engine raises nothing and divides by nothing, and the
report grades MINIMAL — but its impact score is a small positive number
(≈ 6.0: the sigmoid risk term and the two logarithmic components are non-zero
even on all-zero inputs), not 0. -/
theorem zeroed_subreports_grade_minimal :
    zeroedImpactReport.impact_grade = "MINIMAL"
    ∧ 0 < zeroedImpactReport.impact_score
    ∧ zeroedImpactReport.impact_score < 35 := by
  obtain ⟨h1, h2⟩ := zeroedImpact_score_bounds
  have hg : zeroedImpactReport.impact_grade
      = ImpactEngine.impactGrade zeroedImpactReport.impact_score := rfl
  refine ⟨?_, h1, h2⟩
  rw [hg]
  unfold ImpactEngine.impactGrade
  split_ifs <;> first | rfl | (exfalso; linarith)

/-- C1 (counterexample): the impact score of the all-zero scenario is not 0. -/
theorem zeroed_impact_score_nonzero : zeroedImpactReport.impact_score ≠ 0 :=
  zeroedImpact_score_bounds.1.ne'

theorem scoreDeadline_time_indep (t t' : ℤ) (d : ComplianceRisk.DeadlineSpec)
    (h : d.nonDate = true) :
    ComplianceRisk.scoreDeadline t d = ComplianceRisk.scoreDeadline t' d := by
  cases d with
  | date x => simp [ComplianceRisk.DeadlineSpec.nonDate] at h
  | text s => rfl

theorem scoreObligation_time_indep (cfg : ScoringConfig) (pmap : List (String × ℚ))
    (sm rm : ℚ) (t t' : ℤ) (obl : ComplianceRisk.ObligationInput)
    (h : obl.deadline.nonDate = true) :
    ComplianceRisk.scoreObligation cfg pmap sm rm t obl
      = ComplianceRisk.scoreObligation cfg pmap sm rm t' obl := by
  unfold ComplianceRisk.scoreObligation
  rw [scoreDeadline_time_indep t t' _ h]

theorem sortedRisks_time_indep (cfg : ScoringConfig) (pmap : List (String × ℚ))
    (sm rm : ℚ) (t t' : ℤ) (analysis : ComplianceRisk.AnalysisInput)
    (h : ∀ ob ∈ analysis.obligations, ob.deadline.nonDate = true) :
    ComplianceRisk.sortedRisks cfg pmap sm rm t analysis
      = ComplianceRisk.sortedRisks cfg pmap sm rm t' analysis := by
  unfold ComplianceRisk.sortedRisks
  have hmap : analysis.obligations.map (ComplianceRisk.scoreObligation cfg pmap sm rm t)
      = analysis.obligations.map (ComplianceRisk.scoreObligation cfg pmap sm rm t') :=
    List.map_congr_left (fun ob hob => scoreObligation_time_indep cfg pmap sm rm t t' ob (h ob hob))
  rw [hmap]

theorem scoreCore_eraseTime_indep (cfg : ScoringConfig) (pmap : List (String × ℚ))
    (sm rm : ℚ) (t t' : ℤ) (analysis : ComplianceRisk.AnalysisInput)
    (h : ∀ ob ∈ analysis.obligations, ob.deadline.nonDate = true) :
    ComplianceRisk.eraseTime (ComplianceRisk.scoreCore cfg pmap sm rm t analysis)
      = ComplianceRisk.eraseTime (ComplianceRisk.scoreCore cfg pmap sm rm t' analysis) := by
  unfold ComplianceRisk.scoreCore ComplianceRisk.eraseTime
  rw [sortedRisks_time_indep cfg pmap sm rm t t' analysis h]

/-- C4 (amended): every engine operation is a deterministic function of its
inputs and the reading of the clock; with the clock fixed, identical inputs
give identical reports, and when no obligation carries a parsed date deadline
the two reports agree everywhere except in the `generated_at` timestamp. -/
theorem score_deterministic_given_clock (cfg : ScoringConfig) (t t' : ℤ)
    (analysis : ComplianceRisk.AnalysisInput) (profile : Option BusinessProfile)
    (h : ∀ ob ∈ analysis.obligations, ob.deadline.nonDate = true) :
    (ComplianceRisk.score cfg t analysis profile).map ComplianceRisk.eraseTime
      = (ComplianceRisk.score cfg t' analysis profile).map ComplianceRisk.eraseTime := by
  rcases hb : ComplianceRisk.buildPenaltyMap analysis.penalties with e | pmap <;>
    simp only [ComplianceRisk.score, hb, Except.map]
  exact congrArg Except.ok (scoreCore_eraseTime_indep cfg pmap _ _ t t' analysis h)

/-- Witness: two runs of the scorer at clock readings 0 and 500 on a
keyword-deadline analysis coincide after blanking the timestamp. -/
theorem score_deterministic_given_clock_witness :
    (∀ ob ∈ keywordDeadlineAnalysis.obligations, ob.deadline.nonDate = true)
    ∧ (ComplianceRisk.score defaultScoringConfig 0 keywordDeadlineAnalysis none).map
        ComplianceRisk.eraseTime
      = (ComplianceRisk.score defaultScoringConfig 500 keywordDeadlineAnalysis none).map
        ComplianceRisk.eraseTime :=
  ⟨by decide, score_deterministic_given_clock defaultScoringConfig 0 500
    keywordDeadlineAnalysis none (by decide)⟩

/-- C4 (counterexample): two calls on identical input arguments made at
different clock readings produce reports that differ (in `generated_at`,
which `score` stamps with `datetime.utcnow()`), so the output is not
bit-identical across calls. -/
theorem score_not_bit_identical_across_calls :
    Except.map ComplianceRisk.ComplianceRiskReport.generated_at
        (ComplianceRisk.score defaultScoringConfig 0 emptyAnalysis none) = .ok 0
    ∧ Except.map ComplianceRisk.ComplianceRiskReport.generated_at
        (ComplianceRisk.score defaultScoringConfig 1 emptyAnalysis none) = .ok 1
    ∧ ComplianceRisk.score defaultScoringConfig 0 emptyAnalysis none
        ≠ ComplianceRisk.score defaultScoringConfig 1 emptyAnalysis none := by
  have h0 : Except.map ComplianceRisk.ComplianceRiskReport.generated_at
      (ComplianceRisk.score defaultScoringConfig 0 emptyAnalysis none) = .ok 0 := rfl
  have h1 : Except.map ComplianceRisk.ComplianceRiskReport.generated_at
      (ComplianceRisk.score defaultScoringConfig 1 emptyAnalysis none) = .ok 1 := rfl
  refine ⟨h0, h1, fun he => ?_⟩
  have hc := congrArg (Except.map ComplianceRisk.ComplianceRiskReport.generated_at) he
  rw [h0, h1] at hc
  exact absurd hc (by simp)
